import Mathlib

/-!
Shallow embedding of the CoAP message codec in `src/CoAP/src/coap.c`
(repository FTGStudio/CoAP), together with theorems settling the claims
about its specification.

Modelling conventions:

* Memory is a `List Nat` of bytes; a read uses `byteAt`, which reduces the
  stored value mod 256 and yields 0 for a read past the end of the
  materialised list (the C code has no bounds checks, so such reads do
  occur; their concrete value never matters for a theorem below unless
  stated).
* Pointers into a buffer are modelled as offsets (`Nat`) from `pBuffer`.
* C integer types are modelled by `Int`/`Nat` with explicit twos-complement
  truncation helpers `toI8`, `toU8`, `toI16`, `toU16` applied exactly where
  the C code assigns to a narrower type.
* Out-parameters become extra components of the returned tuple; an
  out-parameter the C code leaves unwritten is `none`.
* A C branch that reads an uninitialised pointer variable (undefined
  behaviour) is modelled by an explicit `undef`/`none` result.
* Loops that are not structurally bounded take fuel; `none` means the fuel
  ran out, which for `coapGetPayload` is exactly how the non-terminating
  walk of the C code surfaces.
-/

namespace Coap

/-- A byte read:`buf.getD i 0` truncated to a byte. Reads past the end of
the materialised list yield the default 0. -/
def byteAt (buf : List Nat) (i : Nat) : Nat := buf.getD i 0 % 256

/-- A byte store at offset `i` (no-op past the end of the materialised list). -/
def setByte (buf : List Nat) (i : Nat) (v : Nat) : List Nat := buf.set i (v % 256)

/-- The C `memcpy(buf + pos, data, len)`. -/
def writeBytes (buf : List Nat) (pos : Nat) (data : List Nat) (len : Nat) : List Nat :=
  (List.range len).foldl (fun b j => setByte b (pos + j) (data.getD j 0)) buf

/-- Value of an `int8_t` holding the twos-complement truncation of `n`. -/
def toI8 (n : Int) : Int := if n % 256 < 128 then n % 256 else n % 256 - 256

/-- Value of a `uint8_t` holding the truncation of `n`. -/
def toU8 (n : Int) : Nat := (n % 256).toNat

/-- Value of an `int16_t` holding the twos-complement truncation of `n`. -/
def toI16 (n : Int) : Int := if n % 65536 < 32768 then n % 65536 else n % 65536 - 65536

/-- Value of a `uint16_t` holding the truncation of `n`. -/
def toU16 (n : Int) : Nat := (n % 65536).toNat

/-- Wrapping `uint16_t` subtraction `a - b`. -/
def sub16 (a b : Nat) : Nat := (a % 65536 + 65536 - b % 65536) % 65536

-- Error codes from CoapErrorCode in coap.h.
def COAP_OK : Int := 0
def COAP_INVALID_PACKET : Int := -1
def COAP_INVALID_VERSION : Int := -2
def COAP_INVALID_TOKEN_LENGTH : Int := -3
def COAP_UNKNOWN_CODE : Int := -4
def COAP_OPTIONS_OUT_OF_ORDER : Int := -6
def COAP_INSUFFICIENT_BUFFER : Int := -7
def COAP_FOUND_PAYLOAD_MARKER : Int := -8
def COAP_END_OF_PACKET : Int := -9
def COAP_INVALID_PAYLOAD : Int := -10
def COAP_INVALID_OPTION : Int := -11
def COAP_INVALID_TYPE : Int := -16

/-- coapVersionIsValid: true iff the version equals COAP_VERSION (1). -/
def coapVersionIsValid (version : Int) : Bool := version == 1

/-- coapTypeIsValid: false iff the type is outside 0..3. -/
def coapTypeIsValid (type : Int) : Bool := !(type > 3 || type < 0)

/-- coapTokenLengthIsValid: false iff the (signed) token length is ≥ 9. -/
def coapTokenLengthIsValid (tokenLength : Int) : Bool := !(tokenLength ≥ 9)

/-- coapCodeIsValid: the switch over the CoapCode enumeration. -/
def coapCodeIsValid (code : Int) : Bool :=
  code == 0x00 || code == 0x01 || code == 0x02 || code == 0x03 || code == 0x04 ||
  code == 0x41 || code == 0x42 || code == 0x43 || code == 0x44 || code == 0x45 ||
  code == 0x80 || code == 0x81 || code == 0x82 || code == 0x83 || code == 0x84 ||
  code == 0x85 || code == 0x86 || code == 0x8C || code == 0x8D || code == 0x8F ||
  code == 0xA0 || code == 0xA1 || code == 0xA2 || code == 0xA3 || code == 0xA4 ||
  code == 0xA5

/-- coapOptionIsValid: rejects only 2, 9, 10, 128, 132, 136, 140. -/
def coapOptionIsValid (option : Nat) : Bool :=
  !(option == 2 || option == 9 || option == 10 ||
    option == 128 || option == 132 || option == 136 || option == 140)

/-- coapGetVersion: top 2 bits of byte 0, after the 4-byte length check. -/
def coapGetVersion (buf : List Nat) (bufferLength : Nat) : Int :=
  if bufferLength < 4 then COAP_INVALID_PACKET
  else
    let version : Int := byteAt buf 0 / 64
    if !coapVersionIsValid version then COAP_INVALID_VERSION else version

/-- coapGetType: bits 4-5 of byte 0, after the 4-byte length check. -/
def coapGetType (buf : List Nat) (bufferLength : Nat) : Int :=
  if bufferLength < 4 then COAP_INVALID_PACKET
  else
    let type : Int := byteAt buf 0 / 16 % 4
    if !coapTypeIsValid type then COAP_INVALID_TYPE else type

/-- coapGetTokenLength: low nibble of byte 0, after the 4-byte length check. -/
def coapGetTokenLength (buf : List Nat) (bufferLength : Nat) : Int :=
  if bufferLength < 4 then COAP_INVALID_PACKET
  else
    let tokenLength : Int := byteAt buf 0 % 16
    if !coapTokenLengthIsValid tokenLength then COAP_INVALID_TOKEN_LENGTH else tokenLength

/-- coapGetCode: byte 1 stored through the `int8_t code` local (so bytes ≥
0x80 become negative) and then validated. -/
def coapGetCode (buf : List Nat) (bufferLength : Nat) : Int :=
  if bufferLength < 4 then COAP_INVALID_PACKET
  else
    let code : Int := toI8 (byteAt buf 1)
    if !coapCodeIsValid code then COAP_UNKNOWN_CODE else code

/-- coapGetMessageId: big-endian bytes 2-3 stored into the `int16_t messageId`
local. -/
def coapGetMessageId (buf : List Nat) (bufferLength : Nat) : Int :=
  if bufferLength < 4 then COAP_INVALID_PACKET
  else toI16 (256 * byteAt buf 2 + byteAt buf 3)

/-- coapSetVersion: validates, then byte0 := (version << 6) | (byte0 & 0x3F)
and sets the running length to 1. Returns (result, buffer, length). -/
def coapSetVersion (buf : List Nat) (bufferLength : Nat) (version : Nat) :
    Int × List Nat × Nat :=
  if !coapVersionIsValid (toI8 version) then (COAP_INVALID_VERSION, buf, bufferLength)
  else (COAP_OK, setByte buf 0 (Nat.lor (version * 64) (Nat.land (byteAt buf 0) 0x3F)), 1)

/-- coapSetType: validates, then byte0 := (type << 4) | (byte0 & 0xCF) and
sets the running length to 1. -/
def coapSetType (buf : List Nat) (bufferLength : Nat) (type : Nat) :
    Int × List Nat × Nat :=
  if !coapTypeIsValid (toI8 type) then (COAP_INVALID_TYPE, buf, bufferLength)
  else (COAP_OK, setByte buf 0 (Nat.lor (type * 16) (Nat.land (byteAt buf 0) 0xCF)), 1)

/-- coapSetTokenLength: validates, then byte0 := (tokenLength & 0x0F) | byte0
(the previous nibble is not cleared) and sets the running length to 1. -/
def coapSetTokenLength (buf : List Nat) (bufferLength : Nat) (tokenLength : Nat) :
    Int × List Nat × Nat :=
  if !coapTokenLengthIsValid (toI8 tokenLength) then
    (COAP_INVALID_TOKEN_LENGTH, buf, bufferLength)
  else (COAP_OK, setByte buf 0 (Nat.lor (Nat.land tokenLength 0x0F) (byteAt buf 0)), 1)

/-- coapSetCode: validates, then byte1 := code and sets the running length
to 2. -/
def coapSetCode (buf : List Nat) (bufferLength : Nat) (code : Nat) :
    Int × List Nat × Nat :=
  if !coapCodeIsValid code then (COAP_UNKNOWN_CODE, buf, bufferLength)
  else (COAP_OK, setByte buf 1 code, 2)

/-- coapSetMessageId: bytes 2-3 := big-endian messageId, running length 4. -/
def coapSetMessageId (buf : List Nat) (bufferLength : Nat) (messageId : Nat) :
    Int × List Nat × Nat :=
  (COAP_OK, setByte (setByte buf 2 (messageId % 65536 / 256)) 3 (messageId % 256), 4)

/-- coapSetPacketHeader: runs the five setters in sequence. The `uint8_t
results` local makes every `results < 0` check false, so errors from the
individual setters are ignored and the function always returns COAP_OK. -/
def coapSetPacketHeader (buf : List Nat) (bufferLength : Nat)
    (version type tokenLength code messageId : Nat) : Int × List Nat × Nat :=
  let r1 := coapSetVersion buf bufferLength version
  let r2 := coapSetType r1.2.1 r1.2.2 type
  let r3 := coapSetTokenLength r2.2.1 r2.2.2 tokenLength
  let r4 := coapSetCode r3.2.1 r3.2.2 code
  let r5 := coapSetMessageId r4.2.1 r4.2.2 messageId
  (COAP_OK, r5.2.1, r5.2.2)

/-- Result of coapDecodeOption: an error value, or the updated option-number
accumulator (a `uint8_t` out-param), the offset of the value bytes
(`*pOptionData`), the cursor after the option (`*pNewPointer`) and the
decoded value length (the `int32_t` return). -/
inductive DecodeResult where
  | err (e : Int)
  | ok (optionNumber optionData newPointer optionLength : Nat)
deriving DecidableEq

/-- Second half of coapDecodeOption: the length-nibble chain and the final
assembly, with `p2` the cursor after the delta extension bytes. -/
def decodeOptionFinish (buf : List Nat) (p2 : Nat)
    (optionLength0 optionDelta optionNumber : Nat) : DecodeResult :=
  if optionLength0 = 15 then .err COAP_INVALID_PACKET
  else if optionLength0 = 14 then
    let optionLength := (byteAt buf p2 * 256 + byteAt buf (p2 + 1) + 269) % 65536
    .ok ((optionNumber + optionDelta) % 256) (p2 + 2) (p2 + 2 + optionLength) optionLength
  else if optionLength0 = 13 then
    let optionLength := (byteAt buf p2 + 13) % 65536
    .ok ((optionNumber + optionDelta) % 256) (p2 + 1) (p2 + 1 + optionLength) optionLength
  else if optionLength0 < 13 then
    .ok ((optionNumber + optionDelta) % 256) p2 (p2 + optionLength0) optionLength0
  else .err COAP_INVALID_PACKET

/-- coapDecodeOption over buffer offset `pPointer` with claimed remaining
length `bufferLength` and accumulator `optionNumber`. Both `optionDelta`
(a `uint8_t`) and `optionLength` (a `uint16_t`) wrap on the extended
encodings exactly as the C locals do. After the two initial checks no
access is bounds-checked against `bufferLength`. -/
def coapDecodeOption (buf : List Nat) (pPointer bufferLength optionNumber : Nat) :
    DecodeResult :=
  if bufferLength = 0 then .err COAP_END_OF_PACKET
  else if byteAt buf pPointer = 255 then .err COAP_FOUND_PAYLOAD_MARKER
  else
    let optionDelta0 := byteAt buf pPointer / 16
    let optionLength0 := byteAt buf pPointer % 16
    let p1 := pPointer + 1
    if optionDelta0 = 15 then .err COAP_INVALID_PACKET
    else if optionDelta0 = 14 then
      decodeOptionFinish buf (p1 + 2) optionLength0
        ((byteAt buf p1 * 256 + byteAt buf (p1 + 1) + 269) % 256) optionNumber
    else if optionDelta0 = 13 then
      decodeOptionFinish buf (p1 + 1) optionLength0
        ((byteAt buf p1 + 13) % 256) optionNumber
    else if optionDelta0 < 13 then
      decodeOptionFinish buf p1 optionLength0 optionDelta0 optionNumber
    else .err COAP_INVALID_PACKET

/-- The while loop of coapGetOptionCount. State: cursor, `uint16_t newLength`,
count. The `case 0x0E` arm falls through into the `case 0x0D` arm (no
`break` in the C source), and the `uint8_t optionLength` local wraps the
`+ 269` mod 256. `none` means the fuel ran out. -/
def coapGetOptionCountLoop (buf : List Nat) :
    Nat → Nat → Nat → Nat → Option Int
  | fuel, pointer, newLength, count =>
    let byte := byteAt buf pointer
    if byte = 255 ∨ newLength = 0 then some (count : Int)
    else
      match fuel with
      | 0 => none
      | fuel + 1 =>
        let optionLength0 := byte % 16
        if optionLength0 = 15 then some COAP_INVALID_PACKET
        else if optionLength0 = 14 then
          -- case 0x0E, falling through into case 0x0D
          let p1 := pointer + 1
          let len1 := (byteAt buf p1 + 269) % 256
          let nl1 := sub16 newLength (len1 + 2)
          let p2 := p1 + (len1 + 1)
          let p3 := p2 + 1
          let len2 := (byteAt buf p3 + 13) % 256
          let nl2 := sub16 nl1 (len2 + 2)
          let p4 := p3 + (len2 + 1)
          coapGetOptionCountLoop buf fuel p4 nl2 (count + 2)
        else if optionLength0 = 13 then
          let p1 := pointer + 1
          let len1 := (byteAt buf p1 + 13) % 256
          coapGetOptionCountLoop buf fuel (p1 + (len1 + 1))
            (sub16 newLength (len1 + 2)) (count + 1)
        else
          coapGetOptionCountLoop buf fuel (pointer + (optionLength0 + 1))
            (sub16 newLength (optionLength0 + 1)) (count + 1)

/-- coapGetOptionCount. The internal fuel `bufferLength + 65600` covers every
walk that the loop can terminate on; a run out of fuel (possible only when
reads past the materialised list keep the walk alive) is mapped to 0 and is
never relied upon below. -/
def coapGetOptionCount (buf : List Nat) (bufferLength : Nat) : Int :=
  if bufferLength < 4 then COAP_INVALID_PACKET
  else
    let tokenLength := coapGetTokenLength buf bufferLength
    if tokenLength < 0 then tokenLength
    else if 4 + tokenLength.toNat = bufferLength then 0
    else
      match coapGetOptionCountLoop buf (bufferLength + 65600)
          (4 + tokenLength.toNat) (sub16 bufferLength (4 + tokenLength.toNat)) 0 with
      | some v => v
      | none => 0

/-- The while loop of coapGetPayload. State: cursor, `int16_t newLength`,
`int32_t optionCount`. The loop condition is
`byte != COAP_PAYLOAD_MARKER || newLength == 0`, and the `case 0x0E` arm
falls through into `case 0x0D` exactly as in coapGetOptionCount (here
`optionLength` is an `int32_t`, so no mod-256 wrap). The result is the
(return value, written `*pPayloadData`) pair; `none` means the fuel ran
out, i.e. the walk did not terminate within `fuel` iterations. -/
def coapGetPayloadLoop (buf : List Nat) :
    Nat → Nat → Int → Int → Option (Int × Option Nat)
  | fuel, pointer, newLength, optionCount =>
    let byte := byteAt buf pointer
    if byte ≠ 255 ∨ newLength = 0 then
      match fuel with
      | 0 => none
      | fuel + 1 =>
        let optionLength0 := byte % 16
        if optionLength0 = 15 then some (COAP_INVALID_PACKET, none)
        else if optionLength0 = 14 then
          -- case 0x0E, falling through into case 0x0D
          let p1 := pointer + 1
          let len1 := byteAt buf p1 + 269
          let nl1 := toI16 (newLength - (len1 + 2))
          let p2 := p1 + (len1 + 1)
          let p3 := p2 + 1
          let len2 := byteAt buf p3 + 13
          let nl2 := toI16 (nl1 - (len2 + 2))
          let p4 := p3 + (len2 + 1)
          coapGetPayloadLoop buf fuel p4 nl2 (optionCount - 1)
        else if optionLength0 = 13 then
          let p1 := pointer + 1
          let len1 := byteAt buf p1 + 13
          coapGetPayloadLoop buf fuel (p1 + (len1 + 1))
            (toI16 (newLength - (len1 + 2))) (optionCount - 1)
        else
          coapGetPayloadLoop buf fuel (pointer + (optionLength0 + 1))
            (toI16 (newLength - (optionLength0 + 1))) (optionCount - 1)
    else
      -- loop exited: byte = 255 and newLength ≠ 0 (the C re-check of this
      -- exact condition therefore always takes the first branch)
      if byte = 255 ∧ newLength ≠ 0 then
        some (toI16 (newLength - 1), some (pointer + 1))
      else some (COAP_INVALID_PACKET, none)

/-- coapGetPayload. Returns (return value, written `*pPayloadData`), or
`none` when the option walk runs out of fuel. -/
def coapGetPayload (buf : List Nat) (bufferLength fuel : Nat) :
    Option (Int × Option Nat) :=
  if bufferLength < 4 then some (COAP_INVALID_PACKET, none)
  else
    let newLength := toI16 bufferLength
    let optionCount := coapGetOptionCount buf bufferLength
    let tokenLength := coapGetTokenLength buf bufferLength
    if optionCount < 0 then some (optionCount, none)
    else if tokenLength < 0 then some (tokenLength, none)
    else if (4 + tokenLength : Int) > bufferLength then
      some (COAP_INSUFFICIENT_BUFFER, none)
    else if (4 + tokenLength : Int) = bufferLength then some (0, none)
    else
      let pointer := 4 + tokenLength.toNat
      let newLength1 := toI16 (newLength - (4 + tokenLength))
      let byte := byteAt buf pointer
      if optionCount = 0 ∧ byte = 255 then
        some (toI16 (newLength1 - 1), some (pointer + 1))
      else if optionCount > 0 ∧ byte = 255 then some (COAP_INVALID_PACKET, none)
      else coapGetPayloadLoop buf fuel pointer newLength1 optionCount

/-- Result of the option-skipping loop of coapGetOption. `undef` marks the
branch where the C code assigns `pointer = newPointer` although
coapDecodeOption failed before ever writing `*pNewPointer`, so an
uninitialised pointer is read (undefined behaviour). -/
inductive GetOptionLoopResult where
  | undef
  | ret (v : Int)
  | done (pointer optionNumber : Nat) (optionData : Option Nat) (optionLength : Nat)
deriving DecidableEq

/-- The `for (i = 0; i < optionIndex; i++)` loop of coapGetOption. State:
iterations left, cursor, accumulator (`uint8_t optionNumber`), the
`optionData` local (none while unwritten), the `uint8_t optionLength` local
and the `newPointer` local (none while unwritten). The `newLength` passed
to coapDecodeOption is computed once and never updated, and a negative
decode result is invisible behind the `uint8_t optionLength` local, so the
loop keeps running on the stale cursor. -/
def coapGetOptionLoop (buf : List Nat) (newLength : Nat) :
    Nat → Nat → Nat → Option Nat → Nat → Option Nat → GetOptionLoopResult
  | 0, pointer, num, dataV, lenV, _ => .done pointer num dataV lenV
  | i + 1, pointer, num, dataV, lenV, npVar =>
    if byteAt buf pointer = 255 then .ret COAP_FOUND_PAYLOAD_MARKER
    else
      match coapDecodeOption buf pointer newLength num with
      | .err e =>
        match npVar with
        | none => .undef
        | some np => coapGetOptionLoop buf newLength i np num dataV (toU8 e) (some np)
      | .ok num1 dataPtr newPtr len =>
        coapGetOptionLoop buf newLength i newPtr num1 (some dataPtr) (len % 256)
          (some newPtr)

/-- coapGetOption. Returns `none` on the undefined-behaviour path, otherwise
(return value, written `*pOptionNumber`, written `*pOptionData`): the
number is written only when the accumulator is nonzero, and the data
pointer only when the `optionData` local is nonzero — reading that local
while unwritten only gates an output store, modelled as "not written". -/
def coapGetOption (buf : List Nat) (bufferLength : Nat) (optionIndex : Nat) :
    Option (Int × Option Nat × Option Nat) :=
  if bufferLength < 4 then some (COAP_INVALID_PACKET, none, none)
  else
    let tokenLength := coapGetTokenLength buf bufferLength
    if tokenLength < 0 then some (tokenLength, none, none)
    else if (bufferLength : Int) - (4 + tokenLength) = 0 then
      some (COAP_END_OF_PACKET, none, none)
    else
      let pointer := 4 + tokenLength.toNat
      let newLength := toU16 ((bufferLength : Int) - (4 + tokenLength))
      match coapGetOptionLoop buf newLength optionIndex pointer 0 none 0 none with
      | .undef => none
      | .ret v => some (v, none, none)
      | .done _ num dataV lenV =>
        some ((lenV : Int), (if num ≠ 0 then some num else none), dataV)

/-- The `for (i = 0; i < optionCount; i++)` loop of coapValidatePacket;
`i` is truncated to the `uint8_t optionIndex` parameter at each call.
`none` propagates the undefined-behaviour path of coapGetOption. -/
def coapValidateOptionsLoop (buf : List Nat) (bufferLength : Nat) :
    Nat → Nat → Option Int
  | _, 0 => some COAP_OK
  | i, rem + 1 =>
    match coapGetOption buf bufferLength (i % 256) with
    | none => none
    | some (rv, _, _) =>
      if rv < 0 then some rv else coapValidateOptionsLoop buf bufferLength (i + 1) rem

/-- coapValidatePacket. Notable features taken from the source: the code
check is `coapCodeIsValid(coapGetType(...))` (the type, not the code), and
when coapGetOptionCount reports an error the function executes
`return false`, i.e. returns 0 = COAP_OK. -/
def coapValidatePacket (buf : List Nat) (bufferLength : Nat) : Option Int :=
  if bufferLength = 4 then
    if !coapVersionIsValid (coapGetVersion buf bufferLength) then
      some (coapGetVersion buf bufferLength)
    else if !coapTypeIsValid (coapGetType buf bufferLength) then
      some (coapGetType buf bufferLength)
    else if !coapTokenLengthIsValid (coapGetTokenLength buf bufferLength) then
      some (coapGetTokenLength buf bufferLength)
    else if !coapCodeIsValid (coapGetType buf bufferLength) then
      some (coapGetType buf bufferLength)
    else some COAP_OK
  else
    if !coapVersionIsValid (coapGetVersion buf bufferLength) then
      some (coapGetVersion buf bufferLength)
    else if !coapTypeIsValid (coapGetType buf bufferLength) then
      some (coapGetType buf bufferLength)
    else if !coapTokenLengthIsValid (coapGetTokenLength buf bufferLength) then
      some (coapGetTokenLength buf bufferLength)
    else if !coapCodeIsValid (coapGetType buf bufferLength) then
      some (coapGetType buf bufferLength)
    else
      let optionCount := coapGetOptionCount buf bufferLength
      if optionCount < 0 then some 0  -- C source: return false
      else coapValidateOptionsLoop buf bufferLength 0 optionCount.toNat

/-- coapBuildOptionHeaderLength. `int8_t difference = option -
pPreviousOption` truncates the distance to signed 8 bits, so only deficits
of at most 128 are caught by the `difference < 0` check. -/
def coapBuildOptionHeaderLength (option optionLength pPreviousOption : Nat) : Int :=
  if !coapOptionIsValid option then COAP_INVALID_OPTION
  else
    let difference := toI8 ((option : Int) - pPreviousOption)
    if difference < 0 then COAP_OPTIONS_OUT_OF_ORDER
    else
      let delta := difference
      let l1 : Int := 1 + (if delta < 13 then 0 else if delta < 269 then 1 else 2)
      l1 + (if (optionLength : Int) < 13 then 0
            else if (optionLength : Int) < 269 then 1 else 2)

/-- coapBuildOptionHeader. Returns (the `int8_t` return value
`newPointer - pBuffer`, the updated buffer, the written `*pNewPointer`).
`uint8_t delta = option - previousOption` wraps mod 256 and the subsequent
`delta < 0` test of the source is always false; the 13..268 delta arm
stores `option - 13` (not `delta - 13`); the ≥ 269 arms are unreachable
for 8-bit inputs and reproduce the source `(delta|length) - 269` on the
already-reassigned nibble value. -/
def coapBuildOptionHeader (buf : List Nat) (bufferLength : Nat)
    (option previousOption optionLength optionHeaderLength : Nat)
    (newPointerIn : Nat) : Int × List Nat × Option Nat :=
  if bufferLength < 4 then (COAP_INVALID_PACKET, buf, none)
  else if !coapOptionIsValid option || !coapOptionIsValid previousOption then
    (COAP_INVALID_OPTION, buf, none)
  else
    let tokenLength := coapGetTokenLength buf bufferLength
    if tokenLength < 0 then (tokenLength, buf, none)
    else if (4 : Int) + tokenLength + optionLength + optionHeaderLength > 1460 then
      (COAP_INSUFFICIENT_BUFFER, buf, none)
    else
      let delta0 := (option + 256 - previousOption % 256) % 256
      let np1 := if delta0 < 13 then newPointerIn + 1 else newPointerIn
      let (delta1, np2, buf1) : Nat × Nat × List Nat :=
        if 13 ≤ delta0 ∧ delta0 < 269 then
          (13, np1 + 1, setByte buf (np1 + 1) (option + 256 - 13))
        else if 269 ≤ delta0 then
          (14, np1 + 2,
            setByte (setByte buf (np1 + 1) (toU8 ((14 - 269 : Int) >>> 8)))
              (np1 + 2) (toU8 (14 - 269)))
        else (delta0, np1, buf)
      let (length1, np3, buf2) : Nat × Nat × List Nat :=
        if 13 ≤ optionLength ∧ optionLength < 269 then
          (13, np2 + 1, setByte buf1 np2 (optionLength + 256 - 13))
        else if 269 ≤ optionLength then
          (14, np2 + 2,
            setByte (setByte buf1 np2 ((optionLength - 269) / 256))
              (np2 + 1) (optionLength - 269))
        else (optionLength, np2, buf1)
      -- (delta & 0x0F) << 4 | length
      let buf3 := setByte buf2 newPointerIn (Nat.lor (delta1 % 16 * 16) length1)
      (toI8 np3, buf3, some np3)

/-- coapAddOption. Returns `none` on a path whose C behaviour is undefined
(reading the never-written `previousOption` local, or continuing after the
undefined-behaviour path of coapGetOption); otherwise (return value,
buffer, `*pBufferLength`, `*pNewPointer`). The `uint8_t tokenLength` and
`int8_t optionCount` locals truncate the accessor results; the source
`tokenLength < 0` and final `*pBufferLength < 0` checks are dead (unsigned)
and omitted here. -/
def coapAddOption (buf : List Nat) (bufferLength : Nat)
    (option optionLength : Nat) (optionData : List Nat) (pNewPointer : Nat) :
    Option (Int × List Nat × Nat × Nat) :=
  if bufferLength < 4 then some (COAP_INVALID_PACKET, buf, bufferLength, pNewPointer)
  else
    let tokenLength := toU8 (coapGetTokenLength buf bufferLength)
    let optionCount := toI8 (coapGetOptionCount buf bufferLength)
    if optionCount < 0 then some (optionCount, buf, bufferLength, pNewPointer)
    else if !coapOptionIsValid option then
      some (COAP_INVALID_OPTION, buf, bufferLength, pNewPointer)
    else
      let prevAndPtr : Option (Int × Nat) :=
        if optionCount > 0 then
          match coapGetOption buf bufferLength (toU8 optionCount) with
          | none => none
          | some (_, some n, _) => some (toI8 n, pNewPointer)
          | some (_, none, _) => none
        else some (0, pNewPointer + 4 + tokenLength)
      match prevAndPtr with
      | none => none
      | some (previousOption, newPointer0) =>
        let optionHeaderLength :=
          coapBuildOptionHeaderLength option optionLength (toU8 previousOption)
        if optionHeaderLength < 0 then
          some (optionHeaderLength, buf, bufferLength, pNewPointer)
        else if (4 : Int) + tokenLength + optionLength + optionHeaderLength > 1460 then
          some (COAP_INSUFFICIENT_BUFFER, buf, bufferLength, pNewPointer)
        else if newPointer0 ≠ bufferLength ∧ pNewPointer ≠ 0 then
          some (COAP_INVALID_PACKET, buf, bufferLength, pNewPointer)
        else
          match coapBuildOptionHeader buf bufferLength option (toU8 previousOption)
              optionLength (toU8 optionHeaderLength) newPointer0 with
          | (ret, buf1, npOpt) =>
            let bufferLength1 := toU16 ret
            let newPointer1 := npOpt.getD newPointer0
            let buf2 := writeBytes buf1 newPointer1 optionData optionLength
            some (COAP_OK, buf2, (bufferLength1 + optionLength) % 65536,
              newPointer1 + optionLength)

/-- coapSetPayload. Returns (the `int32_t` return value, buffer,
`*pBufferLength`, written `*pNewPointer`). The `uint8_t tokenLength` local
makes the `tokenLength < 0` check dead (omitted); the guard before writing
is `*pPayloadData != 0`, i.e. a test of the *first payload byte*: when that
byte is 0 the marker and payload are not written, the length counter is
left alone, and COAP_OK is still returned. -/
def coapSetPayload (buf : List Nat) (bufferLength : Nat)
    (payloadLength : Nat) (payloadData : List Nat) (pPointer : Nat) :
    Int × List Nat × Nat × Option Nat :=
  if bufferLength < 4 then (COAP_INVALID_PACKET, buf, bufferLength, none)
  else
    let tokenLength := toU8 (coapGetTokenLength buf bufferLength)
    if payloadLength = 0 then (COAP_INVALID_PAYLOAD, buf, bufferLength, none)
    else if 1460 ≤ payloadLength ∨ 4 + tokenLength + payloadLength > 1460 then
      (COAP_INSUFFICIENT_BUFFER, buf, bufferLength, none)
    else if payloadData.getD 0 0 % 256 ≠ 0 then
      let buf1 := setByte buf pPointer 255
      let buf2 := writeBytes buf1 (pPointer + 1) payloadData payloadLength
      (COAP_OK, buf2, (bufferLength + payloadLength + 1) % 65536,
        some (pPointer + 1 + payloadLength))
    else (COAP_OK, buf, bufferLength, none)

theorem byteAt_lt (buf : List Nat) (i : Nat) : byteAt buf i < 256 :=
  Nat.mod_lt _ (by omega)

theorem toU8_toI8 (p : Nat) (hp : p < 256) : toU8 (toI8 p) = p := by
  unfold toU8 toI8
  split <;> omega

theorem byteAt_oob (buf : List Nat) (i : Nat) (h : buf.length ≤ i) :
    byteAt buf i = 0 := by
  unfold byteAt
  rw [List.getD_eq_default _ _ h]

/-- A valid packet holding exactly one option: header `40 01 00 00`, option
byte 0x1E (delta 1, length nibble 14), extension bytes `00 00` (length
269) and 269 value bytes, one of which (offset 34, where the buggy walk
lands) is 0xFF. -/
def nibble14Buf : List Nat :=
  [0x40, 0x01, 0x00, 0x00, 0x1E, 0x00, 0x00] ++ List.replicate 27 0 ++
    [0xFF] ++ List.replicate 241 0

/-- A valid packet holding one option and no payload marker: header
`40 01 00 00`, then option `11 61` (delta 1, length 1, value 0x61). -/
def noMarkerBuf : List Nat := [0x40, 0x01, 0x00, 0x00, 0x11, 0x61]

/-- C3: on the 276-byte packet `nibble14Buf`, which contains exactly one
option (length nibble 14, i.e. the 2-byte length escape), coapGetOptionCount
returns 2, not 1: the `case 0x0E` arm has no `break` and falls through into
`case 0x0D`, counting the option twice (and mis-advancing the cursor). -/
theorem optionCount_doubleCounts_nibble14 :
    coapGetOptionCount nibble14Buf 276 = 2 ∧ (2 : Int) ≠ 1 := by decide

/-- The option walk of coapGetPayload never exits once the cursor has passed
the end of `noMarkerBuf`: every byte read there is 0, so the loop condition
`byte != 0xFF || newLength == 0` stays true forever. -/
theorem getPayloadLoop_stuck (fuel : Nat) :
    ∀ p, 6 ≤ p → ∀ nl oc, coapGetPayloadLoop noMarkerBuf fuel p nl oc = none := by
  have hlen : noMarkerBuf.length = 6 := rfl
  induction fuel with
  | zero =>
    intro p hp nl oc
    have hb : byteAt noMarkerBuf p = 0 := byteAt_oob _ _ (by rw [hlen]; exact hp)
    simp only [coapGetPayloadLoop, hb]
    rw [if_pos (Or.inl (by omega))]
  | succ n ih =>
    intro p hp nl oc
    have hb : byteAt noMarkerBuf p = 0 := byteAt_oob _ _ (by rw [hlen]; exact hp)
    simp only [coapGetPayloadLoop, hb]
    rw [if_pos (Or.inl (by omega))]
    norm_num
    exact ih (p + 1) (by omega) _ _

/-- C4: on the valid packet `noMarkerBuf` (one option, no payload marker)
coapGetPayload never returns, whatever fuel the walk is given: the loop
condition `byte != COAP_PAYLOAD_MARKER || newLength == 0` is still true when
the buffer is exhausted, so the walk runs past the end of the buffer and
never terminates (the claim says the payload is empty in this case). -/
theorem getPayload_no_marker_never_returns :
    ∀ fuel, coapGetPayload noMarkerBuf 6 fuel = none := by
  intro fuel
  have h0 : coapGetPayload noMarkerBuf 6 fuel =
      coapGetPayloadLoop noMarkerBuf fuel 4 2 1 := rfl
  rw [h0]
  cases fuel with
  | zero =>
    have : coapGetPayloadLoop noMarkerBuf 0 4 2 1 = none := rfl
    exact this
  | succ n =>
    have h1 : coapGetPayloadLoop noMarkerBuf (n + 1) 4 2 1 =
        coapGetPayloadLoop noMarkerBuf n 6 0 0 := rfl
    rw [h1]
    exact getPayloadLoop_stuck n 6 (by omega) 0 0

/-- C9: for any buffer of length ≥ 4, coapGetMessageId returns the big-endian
16-bit value of bytes 2-3 reinterpreted as a signed int16_t: values below
0x8000 are returned as-is, values ≥ 0x8000 come back shifted by −65536, hence
negative and lying in the error range; in particular message-id 0xFFFF yields
−1, the exact value of COAP_INVALID_PACKET. -/
theorem getMessageId_signed_reinterpretation (buf : List Nat) (bufferLength : Nat)
    (h : 4 ≤ bufferLength) :
    (256 * byteAt buf 2 + byteAt buf 3 < 32768 →
      coapGetMessageId buf bufferLength = (256 * byteAt buf 2 + byteAt buf 3 : Int)) ∧
    (32768 ≤ 256 * byteAt buf 2 + byteAt buf 3 →
      coapGetMessageId buf bufferLength =
        (256 * byteAt buf 2 + byteAt buf 3 : Int) - 65536 ∧
      coapGetMessageId buf bufferLength < 0) ∧
    coapGetMessageId [0x40, 0x01, 0xFF, 0xFF] 4 = COAP_INVALID_PACKET := by
  have h2 := byteAt_lt buf 2
  have h3 := byteAt_lt buf 3
  unfold coapGetMessageId toI16
  rw [if_neg (by omega)]
  refine ⟨?_, ?_, by decide⟩ <;> intro hv
  · split <;> omega
  · constructor
    · split <;> omega
    · split <;> omega

/-- Witness for C9 at a concrete buffer: message-id 0x8000 is ≥ 0x8000 and
comes back negative. -/
theorem getMessageId_signed_reinterpretation_w :
    coapGetMessageId [0x40, 0x01, 0x80, 0x00] 4 = (0x8000 : Int) - 65536 ∧
    coapGetMessageId [0x40, 0x01, 0x80, 0x00] 4 < 0 :=
  (getMessageId_signed_reinterpretation [0x40, 0x01, 0x80, 0x00] 4 (by decide)).2.1
    (by decide)

/-- C10: for any buffer with a byte 0 and any token length t ≤ 8,
coapSetTokenLength succeeds, ORs the new nibble into byte 0 without clearing
the old nibble (byte0 becomes b ||| (t &&& 0x0F)), and sets the running
length counter to 1 regardless of its prior value. -/
theorem setTokenLength_ors_nibble (buf : List Nat) (bufferLength t : Nat)
    (hne : buf ≠ []) (ht : t ≤ 8) :
    (coapSetTokenLength buf bufferLength t).1 = COAP_OK ∧
    byteAt (coapSetTokenLength buf bufferLength t).2.1 0 =
      Nat.lor (byteAt buf 0) (Nat.land t 0x0F) ∧
    (coapSetTokenLength buf bufferLength t).2.2 = 1 := by
  have hvalid : coapTokenLengthIsValid (toI8 t) = true := by
    unfold coapTokenLengthIsValid toI8
    have : (t : Int) % 256 = t := by omega
    simp only [this]
    split <;> simp <;> omega
  have hb0 : byteAt buf 0 < 256 := byteAt_lt buf 0
  have hland : Nat.land t 0x0F < 256 :=
    lt_of_le_of_lt Nat.and_le_right (by omega)
  have hlor : Nat.lor (Nat.land t 0x0F) (byteAt buf 0) < 256 := by
    have := Nat.or_lt_two_pow (n := 8) (by simpa using hland) (by simpa using hb0)
    simpa using this
  unfold coapSetTokenLength
  rw [hvalid]
  refine ⟨rfl, ?_, rfl⟩
  cases buf with
  | nil => exact absurd rfl hne
  | cons a l =>
    show ((Nat.lor (Nat.land t 0x0F) (byteAt (a :: l) 0)) % 256 :: l).getD 0 0 % 256 = _
    simp only [List.getD, List.get?, Option.getD]
    rw [Nat.mod_eq_of_lt hlor, Nat.mod_eq_of_lt (Nat.mod_eq_of_lt hlor ▸ hlor)]
    exact Nat.lor_comm _ _

/-- C5 counterexample: decoding the single byte 0x1D with remaining length 1
does not fail with InvalidPacket; it succeeds, reads the (out-of-range)
length extension byte at offset 1, and returns a cursor of 15, far past the
single remaining byte. -/
theorem decodeOption_reads_past_end_cx :
    coapDecodeOption [0x1D] 0 1 0 = DecodeResult.ok 1 2 15 13 ∧
    (1 : Nat) < 15 := by decide

/-- C5 amended: coapDecodeOption bounds-checks nothing beyond `remaining = 0`;
InvalidPacket is returned only when the delta or the length nibble is 15, so
whenever remaining is nonzero, the first byte is not the payload marker and
neither nibble is 15, decoding succeeds even if the extension or value bytes
lie past the end of the buffer. -/
theorem decodeOption_no_bounds_check (buf : List Nat)
    (pPointer bufferLength optionNumber : Nat)
    (h0 : bufferLength ≠ 0)
    (hm : byteAt buf pPointer ≠ 255)
    (hd : byteAt buf pPointer / 16 ≠ 15)
    (hl : byteAt buf pPointer % 16 ≠ 15) :
    coapDecodeOption buf pPointer bufferLength optionNumber ≠
      DecodeResult.err COAP_INVALID_PACKET := by
  have hb : byteAt buf pPointer < 256 := byteAt_lt buf pPointer
  simp only [coapDecodeOption, decodeOptionFinish]
  split_ifs <;>
    first
      | omega
      | exact fun h => DecodeResult.noConfusion h

/-- Witness for C5: byte 0x21 (delta 2, length 1) with remaining 2 does not
yield InvalidPacket. -/
theorem decodeOption_no_bounds_check_w :
    coapDecodeOption [0x21, 0x61] 0 2 0 ≠ DecodeResult.err COAP_INVALID_PACKET :=
  decodeOption_no_bounds_check [0x21, 0x61] 0 2 0 (by decide) (by decide)
    (by decide) (by decide)

/-- C2: coapValidatePacket does not return UnknownCode for a buffer whose
code byte is outside the enumerated set — the source validates
`coapCodeIsValid(coapGetType(...))`, and type values 0..3 are all valid
codes, so `[0x40, 0x05, 0x00, 0x00]` (code byte 0x05, not in the set)
validates as COAP_OK; and a malformed option region is not reported
either — on `[0x40, 0x01, 0x00, 0x00, 0x2F]` (length nibble 15)
coapGetOptionCount fails but the error branch executes `return false`,
i.e. 0 = COAP_OK. -/
theorem validate_wrong_checks :
    coapValidatePacket [0x40, 0x05, 0x00, 0x00] 4 = some COAP_OK ∧
    coapValidatePacket [0x40, 0x01, 0x00, 0x00, 0x2F] 5 = some COAP_OK ∧
    COAP_UNKNOWN_CODE ≠ COAP_OK := by decide

/-- C7: a nibble equal to 15 at a non-terminal position does not make
coapValidatePacket return InvalidPacket: with length nibble 15
(`[.., 0x0F]`) the count walk does detect the error but the validate error
branch executes `return false` (= 0 = COAP_OK), and with delta nibble 15
(`[.., 0xF0]`) nothing detects it at all (the count walk only inspects
length nibbles and coapGetOption at index i never decodes option i). The
length < 4 half of the claim does hold: a 3-byte buffer yields
COAP_INVALID_PACKET. -/
theorem validate_nibble15_accepted :
    coapValidatePacket [0x40, 0x01, 0x00, 0x00, 0x0F] 5 = some COAP_OK ∧
    coapValidatePacket [0x40, 0x01, 0x00, 0x00, 0xF0] 5 = some COAP_OK ∧
    COAP_INVALID_PACKET ≠ COAP_OK ∧
    coapValidatePacket [0x40, 0x01, 0x00] 3 = some COAP_INVALID_PACKET := by decide

/-- A buffer with a valid header (`40 01 00 00`), no token, and seventeen
options accumulating to option number 200 (sixteen `C0` bytes, delta 12
each, then `80`, delta 8), logical length 21 inside a larger physical
buffer. -/
def highOptionBuf : List Nat :=
  [0x40, 0x01, 0x00, 0x00] ++ List.replicate 16 0xC0 ++ [0x80] ++ List.replicate 9 0

/-- C6 counterexample: on `highOptionBuf` the highest option present is 200
(as coapGetOption itself reports), yet coapAddOption with the smaller
option number 7 does not return OptionsOutOfOrder: the signed-8-bit
`difference = 7 - 200` truncates to +63, so the option is appended —
COAP_OK is returned and the buffer-length counter grows from 21 to 22. -/
theorem addOption_out_of_order_cx :
    coapGetOption highOptionBuf 21 17 = some (0, some 200, some 21) ∧
    (7 : Nat) < 200 ∧
    (coapAddOption highOptionBuf 21 7 0 [] 21).map (fun r => (r.1, r.2.2.1)) =
      some (COAP_OK, 22) := by decide

/-- C6 amended: coapAddOption rejects an out-of-order option and leaves the
buffer, the length counter and the caller pointer untouched whenever the
new number is smaller than the highest number already present *and* the
deficit is at most 128 (so that the signed-8-bit difference computed by
coapBuildOptionHeaderLength is negative); hypotheses mirror the walk the
function itself performs to find the previous number. -/
theorem addOption_out_of_order (buf : List Nat) (bufferLength : Nat)
    (option optionLength : Nat) (optionData : List Nat) (pNewPointer : Nat)
    (p : Nat) (rv : Int) (dv : Option Nat)
    (h4 : ¬ bufferLength < 4)
    (hcnt : 0 < toI8 (coapGetOptionCount buf bufferLength))
    (hvalid : coapOptionIsValid option = true)
    (hget : coapGetOption buf bufferLength
        (toU8 (toI8 (coapGetOptionCount buf bufferLength))) = some (rv, some p, dv))
    (hp : p < 256)
    (hlt : option < p)
    (hdiff : p - option ≤ 128) :
    coapAddOption buf bufferLength option optionLength optionData pNewPointer =
      some (COAP_OPTIONS_OUT_OF_ORDER, buf, bufferLength, pNewPointer) := by
  have hnneg : ¬ toI8 (coapGetOptionCount buf bufferLength) < 0 := by omega
  have hfail : coapBuildOptionHeaderLength option optionLength (toU8 (toI8 p)) =
      COAP_OPTIONS_OUT_OF_ORDER := by
    rw [toU8_toI8 p hp]
    unfold coapBuildOptionHeaderLength
    rw [hvalid]
    have hneg : toI8 ((option : Int) - p) < 0 := by
      unfold toI8
      split <;> omega
    simp only [Bool.not_true, Bool.false_eq_true, if_false, if_pos hneg]
  unfold coapAddOption
  rw [if_neg h4, if_neg hnneg, hvalid]
  simp only [Bool.not_true, Bool.false_eq_true, if_false, if_pos hcnt, hget, hfail]
  norm_num [COAP_OPTIONS_OUT_OF_ORDER]

/-- Witness for C6 (scenario S5): after the header and one Uri-Path option
number 11 (`B1 61`), adding option 7 returns OptionsOutOfOrder and leaves
the buffer, its length 6 and the pointer unchanged. -/
theorem addOption_out_of_order_w :
    coapAddOption [0x40, 0x01, 0x00, 0x00, 0xB1, 0x61] 6 7 0 [] 6 =
      some (COAP_OPTIONS_OUT_OF_ORDER, [0x40, 0x01, 0x00, 0x00, 0xB1, 0x61], 6, 6) :=
  addOption_out_of_order [0x40, 0x01, 0x00, 0x00, 0xB1, 0x61] 6 7 0 [] 6
    11 1 (some 5) (by decide) (by decide) (by decide) (by decide) (by decide)
    (by decide) (by decide)

/-- C1: the encode/decode round trip is broken already at the header: the
logical message (version 1, type CON, empty token, code 0x80 = BadRequest,
message-id 0) encodes via coapSetPacketHeader to [0x40, 0x80, 0x00, 0x00]
(coapCodeIsValid accepts 0x80 on the encode side), but coapGetCode on the
encoded buffer returns COAP_UNKNOWN_CODE instead of 0x80, because the code
byte is stored through an `int8_t` local and 0x80 becomes −128. -/
theorem roundTrip_code_0x80_broken :
    (coapSetPacketHeader [0, 0, 0, 0] 0 1 0 0 0x80 0).2.1 = [0x40, 0x80, 0, 0] ∧
    (coapSetPacketHeader [0, 0, 0, 0] 0 1 0 0 0x80 0).2.2 = 4 ∧
    coapCodeIsValid 0x80 = true ∧
    coapGetCode [0x40, 0x80, 0, 0] 4 = COAP_UNKNOWN_CODE ∧
    COAP_UNKNOWN_CODE ≠ (0x80 : Int) := by decide

/-- C8 counterexample: with a valid header and token length, payloadLength =
1460 (≥ 1) and payload data whose first byte is 0x00, coapSetPayload does
not return COAP_OK: the capacity checks fire first and it returns
InsufficientBuffer, so the unqualified claim "returns COAP_OK" is false. -/
theorem setPayload_capacity_cx :
    coapSetPayload [0x40, 0x01, 0x00, 0x00] 4 1460 (List.replicate 1460 0) 4 =
      (COAP_INSUFFICIENT_BUFFER, [0x40, 0x01, 0x00, 0x00], 4, none) ∧
    COAP_INSUFFICIENT_BUFFER ≠ COAP_OK := by decide

/-- C8 amended: for every buffer with a valid header and token length and a
payload that passes the capacity checks (payloadLength ≥ 1 and
4 + tokenLength + payloadLength ≤ 1460, payloadLength < 1460), calling
coapSetPayload with payload data whose first byte is 0x00 returns COAP_OK
while writing neither the 0xFF marker nor any payload bytes and leaving the
buffer and its length counter unchanged: the guard `*pPayloadData != 0`
dereferences the data pointer, testing the first payload byte. -/
theorem setPayload_zero_first_byte (buf : List Nat) (bufferLength : Nat)
    (payloadLength : Nat) (payloadData : List Nat) (pPointer : Nat)
    (h4 : ¬ bufferLength < 4)
    (htkl : byteAt buf 0 % 16 ≤ 8)
    (hlen : payloadLength ≠ 0)
    (hcap1 : payloadLength < 1460)
    (hcap2 : 4 + byteAt buf 0 % 16 + payloadLength ≤ 1460)
    (hz : payloadData.getD 0 0 % 256 = 0) :
    coapSetPayload buf bufferLength payloadLength payloadData pPointer =
      (COAP_OK, buf, bufferLength, none) := by
  have htok : coapGetTokenLength buf bufferLength = (byteAt buf 0 : Int) % 16 := by
    unfold coapGetTokenLength coapTokenLengthIsValid
    rw [if_neg h4]
    have h9 : ¬ ((byteAt buf 0 : Int) % 16 ≥ 9) := by omega
    simp [h9]
  have htokU : toU8 (coapGetTokenLength buf bufferLength) = byteAt buf 0 % 16 := by
    rw [htok]
    unfold toU8
    omega
  unfold coapSetPayload
  rw [if_neg h4]
  simp only [htokU]
  rw [if_neg hlen, if_neg (by omega), if_neg (by omega)]

/-- Witness for C8: header-only buffer, payload length 2, data starting with
byte 0x00 — COAP_OK and nothing stored. -/
theorem setPayload_zero_first_byte_w :
    coapSetPayload [0x40, 0x01, 0x00, 0x00] 4 2 [0x00, 0x07] 4 =
      (COAP_OK, [0x40, 0x01, 0x00, 0x00], 4, none) :=
  setPayload_zero_first_byte [0x40, 0x01, 0x00, 0x00] 4 2 [0x00, 0x07] 4
    (by decide) (by decide) (by decide) (by decide) (by decide) (by decide)

/-- Witness for C10: byte 0 initially 0xA5; setting token length 5 yields
0xA5 ||| 5 = 0xA5 (nibble 5 ORed into nibble 5 of 0xA5). -/
theorem setTokenLength_ors_nibble_w :
    (coapSetTokenLength [0xA3, 0, 0, 0] 4 5).1 = COAP_OK ∧
    byteAt (coapSetTokenLength [0xA3, 0, 0, 0] 4 5).2.1 0 =
      Nat.lor (byteAt [0xA3, 0, 0, 0] 0) (Nat.land 5 0x0F) ∧
    (coapSetTokenLength [0xA3, 0, 0, 0] 4 5).2.2 = 1 :=
  setTokenLength_ors_nibble [0xA3, 0, 0, 0] 4 5 (by decide) (by decide)

end Coap
